import Mathlib

/-
Verification development for the miniterms runner-game core.

Shallow embedding conventions:
- Rust `i32` positions are modelled as `Int` and `u16`/`usize`/`u32`
  quantities as `Nat` (none of the verified claims concerns integer
  overflow, so arithmetic is unbounded).
- Fallible operations (Rust panics: out-of-bounds `Solution::keys`,
  division by zero in `Parabola::calc_value`) return `Except String`.
- The external `rand::SmallRng` generator is modelled abstractly: its state
  is a `Nat` and every definition that draws randomness takes a step
  function `rngNext : Nat -> Nat × Nat` (raw draw, next state) as a
  parameter; `gen_range(lo..hi)` maps the raw draw into `[lo, hi)`.
-/

set_option maxRecDepth 4000

namespace Miniterms

/-- Two-dimensional coordinate, src/math.rs `Pos<T>`. -/
structure Pos (α : Type) where
  x : α
  y : α
deriving DecidableEq, Repr

/-- Two-dimensional extent, src/math.rs `Size<T>`. -/
structure Size (α : Type) where
  width : α
  height : α
deriving DecidableEq, Repr

/-- Half-open interval, src/math.rs `Line<T>`; the source field `end` is a
Lean keyword and is rendered `stop`. -/
structure Line (α : Type) where
  start : α
  stop : α
deriving DecidableEq, Repr

/-- Rectangle as a pair of extents, src/math.rs `Rect<T>`. -/
structure Rect (α : Type) where
  x : Line α
  y : Line α
deriving DecidableEq, Repr

/-- Constructor `Line::new`. -/
def Line.new {α : Type} (start stop : α) : Line α := ⟨start, stop⟩

/-- Checked constructor `Line::new_checked`: `none` when `start >= end`. -/
def Line.new_checked {α : Type} [LinearOrder α] (start stop : α) : Option (Line α) :=
  if start ≥ stop then none else some ⟨start, stop⟩

/-- Interval intersection `Line::intersect`. -/
def Line.intersect {α : Type} [LinearOrder α] (l other : Line α) : Option (Line α) :=
  Line.new_checked (max l.start other.start) (min l.stop other.stop)

/-- Translation `Line::translate`. -/
def Line.translate {α : Type} [Add α] (l : Line α) (amount : α) : Line α :=
  ⟨l.start + amount, l.stop + amount⟩

/-- Rectangle intersection `Rect::intersect`, `none` when either axis is empty. -/
def Rect.intersect {α : Type} [LinearOrder α] (r other : Rect α) : Option (Rect α) := do
  pure { x := (← r.x.intersect other.x), y := (← r.y.intersect other.y) }

/-- Bitmap image, src/image.rs `Image`: rows of bit masks, least-significant
bit is the leftmost column.  Rust stores rows as `u32`; rows are modelled as
`Nat` (the render-only `color` field is omitted). -/
structure Image where
  pixels : List Nat
  width : Nat
deriving DecidableEq, Repr

/-- Accessor `Image::height` (the row count). -/
def Image.height (img : Image) : Nat := img.pixels.length

/-- Anchoring mode of a sprite edge, src/image.rs `Origin`. -/
inductive Origin
  | Min
  | Max
deriving DecidableEq, Repr

/-- Positioned bitmap, src/image.rs `Sprite`. -/
structure Sprite where
  image : Image
  position : Pos Int
  origin : Pos Origin
deriving DecidableEq, Repr

/-- Partial-image draw descriptor, src/image.rs `SpriteRect`. -/
structure SpriteRect where
  image : Image
  image_offset : Pos Nat
  rect : Rect Nat
deriving DecidableEq, Repr

/-- Per-axis clip result, src/image.rs `Clip`. -/
structure Clip where
  image_offset : Nat
  position : Line Nat
deriving DecidableEq, Repr

/-- Clip constructor `Clip::new`: clips an `i32` range against `[0, window_size)`,
`none` when the range lies entirely outside. -/
def Clip.new (window_size : Nat) (range : Line Int) : Option Clip :=
  if range.stop ≤ 0 ∨ (window_size : Int) ≤ range.start then
    none
  else
    some { image_offset := (max (-range.start) 0).toNat
           position := { start := (max range.start 0).toNat
                         stop := (min range.stop (window_size : Int)).toNat } }

/-- Axis-aligned box of a sprite, src/image.rs `Sprite::bounding_box`. -/
def Sprite.bounding_box (s : Sprite) : Rect Int :=
  let x := s.position.x
  let y := s.position.y
  let width : Int := s.image.width
  let height : Int := s.image.height
  { x := match s.origin.x with
      | Origin.Min => Line.new x (x + width)
      | Origin.Max => Line.new (x - width + 1) (x + 1)
    y := match s.origin.y with
      | Origin.Min => Line.new y (y + height)
      | Origin.Max => Line.new (y - height + 1) (y + 1) }

/-- Viewport projection src/image.rs `Sprite::rect`.  Note that the source
passes `canvas_size.width` to the clip of BOTH axes. -/
def Sprite.rect (s : Sprite) (origin : Pos Int) (canvas_size : Size Nat) :
    Option SpriteRect := do
  let r := s.bounding_box
  let x_clip ← Clip.new canvas_size.width (r.x.translate origin.x)
  let y_clip ← Clip.new canvas_size.width (r.y.translate (origin.y - s.position.y * 2))
  pure { image := s.image
         image_offset := ⟨x_clip.image_offset, y_clip.image_offset⟩
         rect := { x := x_clip.position, y := y_clip.position } }

/-- List of the integers in the half-open range `[a, b)` (Rust `a..b`). -/
def intRange (a b : Int) : List Int :=
  (List.range (b - a).toNat).map (fun i : Nat => a + (i : Int))

/-- Row test of `Sprite::collide`: aligns the two bit rows by right-shifting
the row whose box starts at the smaller (or equal, for the second row) column
and checks for a shared set bit. -/
def collideRows (row_a row_b : Nat) (start_a start_b : Int) : Bool :=
  if start_a < start_b then
    (row_a >>> (start_b - start_a).toNat) &&& row_b != 0
  else
    row_a &&& (row_b >>> (start_a - start_b).toNat) != 0

/-- Pixel-mask collision src/image.rs `Sprite::collide`. -/
def Sprite.collide (a other : Sprite) : Bool :=
  let box_a := a.bounding_box
  let box_b := other.bounding_box
  match box_a.intersect box_b with
  | none => false
  | some intersection =>
    (intRange intersection.y.start intersection.y.stop).any fun y =>
      collideRows (a.image.pixels.getD (y - box_a.y.start).toNat 0)
        (other.image.pixels.getD (y - box_b.y.start).toNat 0)
        box_a.x.start box_b.x.start

/-- Specification-side predicate: the sprite has an opaque pixel at absolute
coordinate `(x, y)` (the pixel is inside the bounding box and its bit is set). -/
def Sprite.opaqueAt (s : Sprite) (x y : Int) : Prop :=
  s.bounding_box.x.start ≤ x ∧ x < s.bounding_box.x.stop ∧
  s.bounding_box.y.start ≤ y ∧ y < s.bounding_box.y.stop ∧
  Nat.testBit (s.image.pixels.getD ((y - s.bounding_box.y.start).toNat) 0)
    ((x - s.bounding_box.x.start).toNat) = true

/-- Well-formed image: no row has a bit set at or beyond the declared width
(automatic for the in-repo sprite tables; a Rust `u32` row with spurious high
bits would violate it). -/
def Image.wf (img : Image) : Prop := ∀ r ∈ img.pixels, r < 2 ^ img.width

instance (img : Image) : Decidable img.wf := by
  unfold Image.wf; infer_instance

/-! ## Motion curve (src/games/utils.rs `Parabola`) -/

/-- Fixed-point motion curve, src/games/utils.rs `Parabola`. -/
structure Parabola where
  max : Nat
  duration : Nat
  time : Nat
  value : Nat
deriving DecidableEq, Repr

/-- Constructor `Parabola::new`: elapsed time 0, value 0. -/
def Parabola.new (max duration : Nat) : Parabola :=
  { max := max, duration := duration, time := 0, value := 0 }

/-- Division modelling Rust `/` on `usize`: panics (`Except.error`) on a zero
divisor. -/
def checkedDiv (a b : Nat) : Except String Nat :=
  if b = 0 then Except.error "attempt to divide by zero" else Except.ok (a / b)

/-- Current-value formula `Parabola::calc_value`.  The division is only
reached when `time < duration`. -/
def Parabola.calc_value (p : Parabola) : Except String Nat :=
  let a := 4 * p.max
  let b := 4 * p.max * p.duration
  if p.time ≥ p.duration then
    Except.ok 0
  else
    checkedDiv (b * p.time - a * p.time * p.time) (p.duration * p.duration)

/-- Step `Parabola::step`: advance elapsed time by one and recompute the value. -/
def Parabola.step (p : Parabola) : Except String Parabola := do
  let p' : Parabola := { p with time := p.time + 1 }
  let v ← p'.calc_value
  pure { p' with value := v }

/-- Predicate `Parabola::finished`. -/
def Parabola.finished (p : Parabola) : Bool := p.time ≥ p.duration

/-- Iterated stepping: the parabola after `n` calls to `step`. -/
def Parabola.stepN (p : Parabola) : Nat → Except String Parabola
  | 0 => Except.ok p
  | n + 1 => do Parabola.step (← p.stepN n)

/-! ## Input state (src/input.rs `Keys`) -/

/-- Logical key, src/input.rs `Key` (discriminants 0..4). -/
inductive Key
  | Up
  | Down
  | Left
  | Right
  | Space
deriving DecidableEq, Repr

/-- Discriminant of `Key` (`Key as u8`). -/
def Key.toIdx : Key → Nat
  | Key.Up => 0
  | Key.Down => 1
  | Key.Left => 2
  | Key.Right => 3
  | Key.Space => 4

/-- Bit mask `Key::mask`. -/
def Key.mask (k : Key) : Nat := 1 <<< k.toIdx

/-- Conversion `Key::from_u8`; the source panics on inputs above 4, modelled
as `none`. -/
def Key.from_u8 : Nat → Option Key
  | 0 => some Key.Up
  | 1 => some Key.Down
  | 2 => some Key.Left
  | 3 => some Key.Right
  | 4 => some Key.Space
  | _ => none

/-- Input state, src/input.rs `Keys`: two `u8` bit masks, modelled as `Nat`. -/
structure Keys where
  just_pressed : Nat
  pressing : Nat
deriving DecidableEq, Repr

/-- Constructor `Keys::new`. -/
def Keys.new : Keys := ⟨0, 0⟩

/-- Tick-boundary reset `Keys::update`: clears the just-pressed mask. -/
def Keys.update (ks : Keys) : Keys := { ks with just_pressed := 0 }

/-- Setter `Keys::press`. -/
def Keys.press (ks : Keys) (k : Key) : Keys :=
  { just_pressed := ks.just_pressed ||| k.mask, pressing := ks.pressing ||| k.mask }

/-- Setter `Keys::release`: clears only the held bit (`pressing &= !mask` on
a `u8`, so the complement is taken in eight bits). -/
def Keys.release (ks : Keys) (k : Key) : Keys :=
  { ks with pressing := ks.pressing &&& (255 ^^^ k.mask) }

/-- Query `Keys::just_pressed(key)` (the source method shares its name with
the field; the method is rendered `isJustPressed`). -/
def Keys.isJustPressed (ks : Keys) (k : Key) : Bool :=
  (ks.just_pressed &&& k.mask) != 0

/-- Query `Keys::pressing(key)` (rendered `isPressing`, see `isJustPressed`). -/
def Keys.isPressing (ks : Keys) (k : Key) : Bool :=
  ks.isJustPressed k || ((ks.pressing &&& k.mask) != 0)

/-- Query `Keys::any_pressed`. -/
def Keys.any_pressed (ks : Keys) : Bool :=
  ks.just_pressed != 0 || ks.pressing != 0

/-! ## Pseudo-random input sequence generator (src/solution.rs)

The external `rand::SmallRng` is modelled abstractly by a step function
`rngNext : Nat → Nat × Nat` mapping the current state to (raw draw, next
state); see the header comment.  Determinism of the repository code
corresponds to every definition below being a pure function of the seed
state and `rngNext`. -/

/-- Model of `Rng::gen_range(lo..hi)`: maps the raw draw into `[lo, hi)`. -/
def genRange (rngNext : Nat → Nat × Nat) (lo hi : Nat) (rng : Nat) : Nat × Nat :=
  (lo + (rngNext rng).1 % (hi - lo), (rngNext rng).2)

/-- Model of `RngCore::next_u32`: a raw draw reduced to 32 bits. -/
def next_u32 (rngNext : Nat → Nat × Nat) (rng : Nat) : Nat × Nat :=
  ((rngNext rng).1 % 2 ^ 32, (rngNext rng).2)

/-- Little-endian packing of seed bytes into the abstract generator state,
modelling `SmallRng::from_seed`. -/
def fromSeed (bytes : List Nat) : Nat :=
  bytes.foldr (fun b acc => b + 256 * acc) 0

/-- The fixed seed bytes `b"This is a funny random seed !!!!"` used by
`SolutionGenerator::new`. -/
def solutionSeedBytes : List Nat :=
  "This is a funny random seed !!!!".data.map Char.toNat

/-- Size `SOLUTION_SIZE = 1 << 10`. -/
def SOLUTION_SIZE : Nat := 1 <<< 10

/-- Stochastic phase, src/solution.rs `GeneratorPhase`. -/
inductive GeneratorPhase
  | LowFreq
  | HighFreq
deriving DecidableEq, Repr

/-- Weighted phase choice `GeneratorPhase::sample`: 0..=29 ↦ LowFreq,
30..=99 ↦ HighFreq. -/
def GeneratorPhase.sample (rngNext : Nat → Nat × Nat) (rng : Nat) :
    GeneratorPhase × Nat :=
  let v := genRange rngNext 0 100 rng
  (if v.1 ≤ 29 then GeneratorPhase.LowFreq else GeneratorPhase.HighFreq, v.2)

/-- Generator state, src/solution.rs `SolutionGenerator`. -/
structure SolutionGenerator where
  keys : Keys
  phase : GeneratorPhase
  phase_time_left : Nat
  random_generator : Nat
deriving DecidableEq, Repr

/-- Constructor `SolutionGenerator::new`: fixed phase, countdown 0, and the
fixed reproducible seed. -/
def SolutionGenerator.new : SolutionGenerator :=
  { keys := Keys.new
    phase := GeneratorPhase.LowFreq
    phase_time_left := 0
    random_generator := fromSeed solutionSeedBytes }

/-- The release loop of the HighFreq branch (`for _ in 0..4`): each iteration
draws `gen_range(0..2)` and, when the draw is `< 0` (the literal
condition of the source on the drawn value), releases a random key. -/
def highFreqReleaseLoop (rngNext : Nat → Nat × Nat) :
    Nat → Keys → Nat → Keys × Nat
  | 0, keys, rng => (keys, rng)
  | n + 1, keys, rng =>
    let v := genRange rngNext 0 2 rng
    let kr : Keys × Nat :=
      if v.1 < 0 then
        let kv := genRange rngNext 0 5 v.2
        (keys.release ((Key.from_u8 kv.1).getD Key.Up), kv.2)
      else (keys, v.2)
    highFreqReleaseLoop rngNext n kr.1 kr.2

/-- The press loop of the HighFreq branch (`for _ in 0..4`): each iteration
draws `gen_range(0..5)` and, when the draw is `< 0`, presses a random key. -/
def highFreqPressLoop (rngNext : Nat → Nat × Nat) :
    Nat → Keys → Nat → Keys × Nat
  | 0, keys, rng => (keys, rng)
  | n + 1, keys, rng =>
    let v := genRange rngNext 0 5 rng
    let kr : Keys × Nat :=
      if v.1 < 0 then
        let kv := genRange rngNext 0 5 v.2
        (keys.press ((Key.from_u8 kv.1).getD Key.Up), kv.2)
      else (keys, v.2)
    highFreqPressLoop rngNext n kr.1 kr.2

/-- Next synthesized input state, src/solution.rs `SolutionGenerator::next`:
update the phase countdown (resampling the phase when it reaches zero),
clear the just-pressed bits, then run the stochastic actions of the current
phase. -/
def SolutionGenerator.next (rngNext : Nat → Nat × Nat)
    (g : SolutionGenerator) : Keys × SolutionGenerator :=
  let pu : GeneratorPhase × Nat × Nat :=
    if g.phase_time_left = 0 then
      let p := GeneratorPhase.sample rngNext g.random_generator
      let d := genRange rngNext 50 100 p.2
      (p.1, d.1, d.2)
    else
      (g.phase, g.phase_time_left - 1, g.random_generator)
  let phase := pu.1
  let phase_time_left := pu.2.1
  let rng := pu.2.2
  let keys := g.keys.update
  match phase with
  | GeneratorPhase.LowFreq =>
    let v := genRange rngNext 0 20 rng
    let kr : Keys × Nat :=
      if v.1 = 0 then
        if keys.any_pressed then (Keys.new, v.2)
        else
          let kv := genRange rngNext 0 5 v.2
          (keys.press ((Key.from_u8 kv.1).getD Key.Up), kv.2)
      else (keys, v.2)
    (kr.1, { keys := kr.1, phase := phase, phase_time_left := phase_time_left
             random_generator := kr.2 })
  | GeneratorPhase.HighFreq =>
    let rel := highFreqReleaseLoop rngNext 4 keys rng
    let pr := highFreqPressLoop rngNext 4 rel.1 rel.2
    (pr.1, { keys := pr.1, phase := phase, phase_time_left := phase_time_left
             random_generator := pr.2 })

/-- First `n` outputs of the generator, in order, with the final state. -/
def SolutionGenerator.nextN (rngNext : Nat → Nat × Nat) :
    Nat → SolutionGenerator → List Keys × SolutionGenerator
  | 0, g => ([], g)
  | n + 1, g =>
    let (k, g') := g.next rngNext
    let (l, g'') := SolutionGenerator.nextN rngNext n g'
    (k :: l, g'')

/-- Ring buffer of generated inputs, src/solution.rs `Solution`.  The source
invariant `first_index < SOLUTION_SIZE` (it is only ever masked by
`SOLUTION_SIZE - 1`) is carried in the `Fin` type; the `keys` array field is
rendered `keysBuf` because the source method `keys(time)` shares its name. -/
structure Solution where
  first_index : Fin SOLUTION_SIZE
  generator : SolutionGenerator
  keysBuf : Fin SOLUTION_SIZE → Keys

/-- Constructor `Solution::new`: seeds the generator and eagerly fills all
`SOLUTION_SIZE` slots in index order, with `first_index = 0`. -/
def Solution.new (rngNext : Nat → Nat × Nat) : Solution :=
  let (l, g) := SolutionGenerator.nextN rngNext SOLUTION_SIZE SolutionGenerator.new
  { first_index := ⟨0, by decide⟩
    generator := g
    keysBuf := fun i => l.getD i.val Keys.new }

/-- Lookup `Solution::keys(time)`: panics (modelled as `Except.error`) when
`time >= SOLUTION_SIZE`, otherwise reads slot `(first_index + time) % SOLUTION_SIZE`. -/
def Solution.keys (s : Solution) (time : Nat) : Except String Keys :=
  if time ≥ SOLUTION_SIZE then
    Except.error "Index out of bounds"
  else
    Except.ok (s.keysBuf ⟨(s.first_index.val + time) % SOLUTION_SIZE,
      Nat.mod_lt _ (by decide)⟩)

/-- Advance `Solution::update`: overwrite the slot at `first_index` with a
freshly generated input state and advance `first_index` by one modulo the
capacity. -/
def Solution.update (rngNext : Nat → Nat × Nat) (s : Solution) : Solution :=
  { first_index := ⟨(s.first_index.val + 1) % SOLUTION_SIZE, Nat.mod_lt _ (by decide)⟩
    generator := (s.generator.next rngNext).2
    keysBuf := Function.update s.keysBuf s.first_index (s.generator.next rngNext).1 }

/-- The buffer after `n` calls to `update`. -/
def Solution.updateN (rngNext : Nat → Nat × Nat) : Nat → Solution → Solution
  | 0, s => s
  | n + 1, s => Solution.updateN rngNext n (s.update rngNext)

/-- Current-tick input states read out over `n` ticks, advancing the buffer
once per tick: the observable input sequence of a run. -/
def Solution.keysTraceFrom (rngNext : Nat → Nat × Nat) (n : Nat) (s : Solution) :
    List (Except String Keys) :=
  (List.range n).map fun k => (Solution.updateN rngNext k s).keys 0

/-! ## Runner game obstacle subsystem (src/games/trex.rs)

Projection of `TRexGame` onto the fields the obstacle code reads and writes
(`enemies`, `enemy_cooldown`, `random`, `frame_count`); the `trex` and
`trex_solution` player fields neither read nor write these, and the
collision check only logs, so the projection evolves exactly as in
`TRexGame::update`.  The front of the queue is the list head. -/

/-- Obstacle kind, src/games/trex.rs `EnemyModel`. -/
inductive EnemyModel
  | Cactus (model : Nat)
  | Bird
deriving DecidableEq, Repr

/-- Obstacle, src/games/trex.rs `Enemy`. -/
structure Enemy where
  position : Pos Int
  velocity : Nat
  model : EnemyModel
deriving DecidableEq, Repr

/-- Obstacle-subsystem state of `TRexGame`. -/
structure EnemiesState where
  enemies : List Enemy
  enemy_cooldown : Nat
  random : Nat
  frame_count : Nat
deriving DecidableEq, Repr

/-- The fixed seed bytes `b"Seed chosen by a fair dice roll."` used by
`TRexGame::new`. -/
def trexSeedBytes : List Nat :=
  "Seed chosen by a fair dice roll.".data.map Char.toNat

/-- Initial obstacle-subsystem state from `TRexGame::new`. -/
def EnemiesState.init : EnemiesState :=
  { enemies := [], enemy_cooldown := 10
    random := fromSeed trexSeedBytes, frame_count := 0 }

/-- Spawner `TRexGame::spawn_cactus`: appends a velocity-3 cactus at the
trailing (right) edge. -/
def spawn_cactus (width : Int) (s : EnemiesState) : EnemiesState :=
  { s with enemies := s.enemies ++
      [{ position := ⟨width, 0⟩, velocity := 3, model := EnemyModel.Cactus 0 }] }

/-- Spawner `TRexGame::spawn_bird`: random height 1..=20, random velocity
4..=7, appended at the trailing edge. -/
def spawn_bird (rngNext : Nat → Nat × Nat) (width : Int) (s : EnemiesState) :
    EnemiesState :=
  let y := genRange rngNext 1 21 s.random
  let v := genRange rngNext 4 8 y.2
  { s with random := v.2
           enemies := s.enemies ++
             [{ position := ⟨width, (y.1 : Int)⟩, velocity := v.1
                model := EnemyModel.Bird }] }

/-- Type choice `TRexGame::spawn_enemy`: a coin (`next_u32 & 3 != 0`) favours
cacti three to one, and cacti are forced during the first 100 frames. -/
def spawn_enemy (rngNext : Nat → Nat × Nat) (width : Int) (s : EnemiesState) :
    EnemiesState :=
  let v := next_u32 rngNext s.random
  let s' := { s with random := v.2 }
  if v.1 &&& 3 ≠ 0 ∨ s'.frame_count < 100 then
    spawn_cactus width s'
  else
    spawn_bird rngNext width s'

/-- Countdown-driven spawning `TRexGame::spawn_enemies`: at zero, redraw the
cooldown from 10..50 and spawn one obstacle; always decrement. -/
def spawn_enemies (rngNext : Nat → Nat × Nat) (width : Int) (s : EnemiesState) :
    EnemiesState :=
  let s' :=
    if s.enemy_cooldown = 0 then
      let d := genRange rngNext 10 50 s.random
      spawn_enemy rngNext width { s with enemy_cooldown := d.1, random := d.2 }
    else s
  { s' with enemy_cooldown := s'.enemy_cooldown - 1 }

/-- Motion `TRexGame::update_enemies`: every obstacle moves left by its own
velocity. -/
def update_enemies (s : EnemiesState) : EnemiesState :=
  { s with enemies := s.enemies.map fun e =>
      { e with position := ⟨e.position.x - (e.velocity : Int), e.position.y⟩ } }

/-- Removal `TRexGame::despawn_enemies`: pop the front obstacle only, and
only when its x position has passed the off-screen barrier -32. -/
def despawn_enemies (s : EnemiesState) : EnemiesState :=
  match s.enemies with
  | [] => s
  | e :: rest => if e.position.x < -32 then { s with enemies := rest } else s

/-- One `TRexGame::update` tick restricted to the obstacle subsystem, in the
source order: despawn, spawn, move, then `frame_count += 1`. -/
def enemiesTick (rngNext : Nat → Nat × Nat) (width : Int) (s : EnemiesState) :
    EnemiesState :=
  let s1 := despawn_enemies s
  let s2 := spawn_enemies rngNext width s1
  let s3 := update_enemies s2
  { s3 with frame_count := s3.frame_count + 1 }

/-- The obstacle-subsystem state after `n` ticks from `TRexGame::new`, with
per-tick viewport widths supplied by the surrounding application. -/
def enemiesRun (rngNext : Nat → Nat × Nat) (widths : Nat → Int) : Nat → EnemiesState
  | 0 => EnemiesState.init
  | n + 1 => enemiesTick rngNext (widths n) (enemiesRun rngNext widths n)

/-- Reachability of an obstacle-subsystem state: produced by some run (some
random draws and some viewport-width inputs). -/
def EnemiesReachable (s : EnemiesState) : Prop :=
  ∃ rngNext widths n, s = enemiesRun rngNext widths n

/-- Specification-side order property: the obstacle positions, from the
front (oldest-spawned) to the back (newest-spawned), are nondecreasing in x,
so the oldest-spawned obstacle is the leading (leftmost) one. -/
def spawnOrderMatchesPositionOrder (s : EnemiesState) : Prop :=
  (s.enemies.map fun e => e.position.x).Pairwise (· ≤ ·)

instance (s : EnemiesState) : Decidable (spawnOrderMatchesPositionOrder s) := by
  unfold spawnOrderMatchesPositionOrder; infer_instance

/-! ## Concrete fixtures used by witnesses and counterexamples -/

/-- A concrete random-generator model: the state is a counter into a fixed
list of raw draws. -/
def listRng (draws : List Nat) (s : Nat) : Nat × Nat := (draws.getD s 0, s + 1)

/-- Raw draws driving the C5 counterexample run (states count up from the
packed trex seed).  In draw order: cooldown 45, cactus coin; cooldown 45,
cactus coin; cooldown 10, cactus coin; cooldown 49, bird coin, bird height
20, bird velocity 7. -/
def c5Draws : List Nat := [35, 1, 35, 1, 0, 1, 39, 4, 19, 3]

/-- Random-generator model for the C5 counterexample: successive draws read
`c5Draws`, offsetting by the initial seed state. -/
def c5Rng (s : Nat) : Nat × Nat :=
  (c5Draws.getD (s - fromSeed trexSeedBytes) 0, s + 1)

/-- A small deterministic random-generator model for witnesses. -/
def witnessRng (s : Nat) : Nat × Nat := (s, s + 1)

/-- A concrete solution-buffer state for witnesses. -/
def witnessSolution : Solution :=
  { first_index := ⟨0, by decide⟩
    generator := SolutionGenerator.new
    keysBuf := fun _ => Keys.new }

/-- A concrete generator state sitting inside the HighFreq phase. -/
def witnessHighFreqGen : SolutionGenerator :=
  { keys := Keys.new.press Key.Up
    phase := GeneratorPhase.HighFreq
    phase_time_left := 6
    random_generator := 0 }

/-- A concrete sprite (single row `0b1111`, width 4) for witnesses. -/
def witnessSpriteA : Sprite :=
  { image := { pixels := [15], width := 4 }
    position := ⟨0, 0⟩
    origin := ⟨Origin.Min, Origin.Min⟩ }

/-- A second concrete sprite (rows `0b1111`, `0b0001`, width 4) for witnesses. -/
def witnessSpriteB : Sprite :=
  { image := { pixels := [15, 1], width := 4 }
    position := ⟨3, 0⟩
    origin := ⟨Origin.Min, Origin.Min⟩ }

/-- A concrete obstacle-subsystem state with two same-speed cacti. -/
def witnessEnemies : EnemiesState :=
  { enemies := [{ position := ⟨10, 0⟩, velocity := 3, model := EnemyModel.Cactus 0 },
                { position := ⟨20, 0⟩, velocity := 3, model := EnemyModel.Cactus 0 }]
    enemy_cooldown := 5
    random := 0
    frame_count := 0 }

/-! # Theorems -/

/-- Closed form for iterated stepping from `Parabola::new` with a positive
duration: after `t` steps the elapsed time is `t` and the stored value is
the integer parabola, forced to 0 from `t = duration` on. -/
theorem parabola_stepN_new (m d : Nat) (hd : 0 < d) (t : Nat) :
    Parabola.stepN (Parabola.new m d) t =
      Except.ok { max := m, duration := d, time := t,
                  value := if d ≤ t then 0
                           else (4 * m * d * t - 4 * m * t * t) / (d * d) } := by
  induction t with
  | zero =>
    simp [Parabola.stepN, Parabola.new, Nat.not_le.mpr hd]
  | succ t ih =>
    rw [Parabola.stepN, ih]
    show Parabola.step _ = _
    unfold Parabola.step Parabola.calc_value checkedDiv
    by_cases h : d ≤ t + 1
    · simp [h]
    · simp [h, Nat.not_le.mp h, Nat.mul_ne_zero (Nat.pos_iff_ne_zero.mp hd)
        (Nat.pos_iff_ne_zero.mp hd)]

/-- C6: for every peak and positive duration, the motion curve has value 0
at elapsed time 0; after `t` steps with `t ≤ duration` its value is
nonnegative and equals the floored parabola
`4*peak*t*(duration - t) / duration^2`; and from `t = duration` on the
value is exactly 0 and `finished()` is true. -/
theorem parabola_motion_curve (max duration : Nat) (hd : 0 < duration) :
    (Parabola.new max duration).value = 0 ∧
    ∀ t, ∃ p, Parabola.stepN (Parabola.new max duration) t = Except.ok p ∧
      0 ≤ p.value ∧
      (t ≤ duration →
        p.value = 4 * max * t * (duration - t) / (duration * duration)) ∧
      (duration ≤ t → p.value = 0 ∧ p.finished = true) := by
  refine ⟨rfl, fun t => ⟨_, parabola_stepN_new max duration hd t, Nat.zero_le _, ?_, ?_⟩⟩
  · intro ht
    rcases eq_or_lt_of_le ht with rfl | hlt
    · simp
    · have hne : ¬ duration ≤ t := Nat.not_le.mpr hlt
      simp only [hne, if_false]
      have h1 : 4 * max * t * (duration - t) = 4 * max * duration * t - 4 * max * t * t := by
        rw [Nat.mul_sub]
        ring_nf
      rw [h1]
  · intro ht
    simp [ht, Parabola.finished]

/-- Witness for C6 at the standing jump parameters (peak 25, duration 22). -/
theorem parabola_motion_curve_witness :
    0 < 22 ∧
    ((Parabola.new 25 22).value = 0 ∧
     ∀ t, ∃ p, Parabola.stepN (Parabola.new 25 22) t = Except.ok p ∧
       0 ≤ p.value ∧
       (t ≤ 22 → p.value = 4 * 25 * t * (22 - t) / (22 * 22)) ∧
       (22 ≤ t → p.value = 0 ∧ p.finished = true)) :=
  ⟨by decide, parabola_motion_curve 25 22 (by decide)⟩

/-- C9 counterexample: with duration 0 the division is never reached, since
`calc_value` returns 0 up front whenever `time ≥ duration` — which holds at
every time for duration 0.  Stepping a duration-0 curve therefore succeeds
(no division-by-zero failure, no fail-fast) and the curve reports finished. -/
theorem parabola_zero_duration_no_failure :
    Parabola.stepN (Parabola.new 5 0) 3 =
      Except.ok { max := 5, duration := 0, time := 3, value := 0 } ∧
    (Parabola.new 5 0).finished = true := by
  exact ⟨rfl, rfl⟩

/-- C9 amended: a duration-0 motion curve is accepted silently — every step
succeeds, the value is always exactly 0 and the curve is finished from the
start; no division by zero and no fatal error occurs. -/
theorem parabola_zero_duration_silent (max t : Nat) :
    Parabola.stepN (Parabola.new max 0) t =
      Except.ok { max := max, duration := 0, time := t, value := 0 } ∧
    (Parabola.new max 0).finished = true := by
  constructor
  · induction t with
    | zero => rfl
    | succ t ih => rw [Parabola.stepN, ih]; rfl
  · rfl

/-- C3 evidence: `Sprite::rect` clips the y extent against the canvas WIDTH
(the source passes `canvas_size.width` to both axis clips).  On a 40-wide,
10-high canvas, a 4-by-1 sprite projected to rows y ∈ [20, 21) — entirely
below the canvas height — is not rejected: `rect` returns a draw descriptor
with off-canvas rows instead of `none`. -/
theorem rect_clips_y_against_width :
    Sprite.rect
        { image := { pixels := [15], width := 4 }
          position := ⟨0, 0⟩
          origin := ⟨Origin.Min, Origin.Min⟩ }
        ⟨0, 20⟩ { width := 40, height := 10 } =
      some { image := { pixels := [15], width := 4 }
             image_offset := ⟨0, 0⟩
             rect := { x := ⟨0, 4⟩, y := ⟨20, 21⟩ } } := by
  decide

/-- C2: determinism — two solution buffers and two generators built by `new`
(which takes no entropy input: both start from the same fixed seed) and
advanced identically produce identical input-state sequences, for every
generator model `rngNext` and every length `N`. -/
theorem solution_deterministic (rngNext : Nat → Nat × Nat) (N : Nat)
    (s1 s2 : Solution) (g1 g2 : SolutionGenerator)
    (hs1 : s1 = Solution.new rngNext) (hs2 : s2 = Solution.new rngNext)
    (hg1 : g1 = SolutionGenerator.new) (hg2 : g2 = SolutionGenerator.new) :
    Solution.keysTraceFrom rngNext N s1 = Solution.keysTraceFrom rngNext N s2 ∧
    (SolutionGenerator.nextN rngNext N g1).1 =
      (SolutionGenerator.nextN rngNext N g2).1 :=
  ⟨congrArg (Solution.keysTraceFrom rngNext N) (hs1.trans hs2.symm),
   congrArg (fun g => (SolutionGenerator.nextN rngNext N g).1) (hg1.trans hg2.symm)⟩

/-- Witness for C2 with a concrete generator model and three ticks. -/
theorem solution_deterministic_witness :
    Solution.keysTraceFrom witnessRng 3 (Solution.new witnessRng) =
      Solution.keysTraceFrom witnessRng 3 (Solution.new witnessRng) ∧
    (SolutionGenerator.nextN witnessRng 3 SolutionGenerator.new).1 =
      (SolutionGenerator.nextN witnessRng 3 SolutionGenerator.new).1 :=
  solution_deterministic witnessRng 3 _ _ _ _ rfl rfl rfl rfl

/-- C8: `keys(t)` returns the stored slot at ring index
`(first_index + t) % capacity` whenever `t < capacity`, and fails with the
out-of-bounds panic whenever `t ≥ capacity`; as a read-only query it
produces no new buffer state. -/
theorem solution_keys_bounds (s : Solution) (t : Nat) :
    (t < SOLUTION_SIZE →
      s.keys t = Except.ok (s.keysBuf ⟨(s.first_index.val + t) % SOLUTION_SIZE,
        Nat.mod_lt _ (by decide)⟩)) ∧
    (SOLUTION_SIZE ≤ t → s.keys t = Except.error "Index out of bounds") := by
  constructor
  · intro h
    unfold Solution.keys
    rw [if_neg (by omega)]
  · intro h
    unfold Solution.keys
    rw [if_pos h]

/-- Witness for C8: an in-range offset returns the stored value, an
out-of-range offset fails. -/
theorem solution_keys_bounds_witness :
    witnessSolution.keys 5 = Except.ok Keys.new ∧
    witnessSolution.keys 2000 = Except.error "Index out of bounds" :=
  ⟨(solution_keys_bounds witnessSolution 5).1 (by decide),
   (solution_keys_bounds witnessSolution 2000).2 (by decide)⟩

/-- C7: after one `update`, offset `i` (for `i ≤ capacity - 2`) reads the
value that offset `i + 1` read before the update, and offset `capacity - 1`
reads the input state freshly produced by the internal generator. -/
theorem solution_update_shifts (rngNext : Nat → Nat × Nat) (s : Solution)
    (i : Nat) (hi : i ≤ SOLUTION_SIZE - 2) :
    (s.update rngNext).keys i = s.keys (i + 1) ∧
    (s.update rngNext).keys (SOLUTION_SIZE - 1) =
      Except.ok (s.generator.next rngNext).1 := by
  have hfi : s.first_index.val < 1024 := s.first_index.isLt
  have hi' : i ≤ 1024 - 2 := hi
  have hS : SOLUTION_SIZE = 1024 := rfl
  constructor
  · unfold Solution.keys Solution.update
    rw [if_neg (by omega), if_neg (by omega)]
    refine congrArg Except.ok ?_
    dsimp only
    rw [Function.update_apply]
    rw [if_neg (fun h => by
      have hv : ((s.first_index.val + 1) % 1024 + i) % 1024 = s.first_index.val :=
        congrArg Fin.val h
      omega)]
    refine congrArg s.keysBuf (Fin.ext ?_)
    show ((s.first_index.val + 1) % 1024 + i) % 1024 =
      (s.first_index.val + (i + 1)) % 1024
    omega
  · unfold Solution.keys Solution.update
    rw [if_neg (by omega)]
    refine congrArg Except.ok ?_
    dsimp only
    rw [Function.update_apply]
    rw [if_pos (Fin.ext (show ((s.first_index.val + 1) % 1024 + (1024 - 1)) % 1024 =
      s.first_index.val by omega))]

/-- Witness for C7 at a concrete buffer state and offset 5. -/
theorem solution_update_shifts_witness :
    (witnessSolution.update witnessRng).keys 5 = witnessSolution.keys 6 ∧
    (witnessSolution.update witnessRng).keys (SOLUTION_SIZE - 1) =
      Except.ok (witnessSolution.generator.next witnessRng).1 :=
  solution_update_shifts witnessRng witnessSolution 5 (by decide)

/-- The HighFreq release loop never changes the key state: its condition
compares a nonnegative draw with `< 0`. -/
theorem highFreqReleaseLoop_fst (rngNext : Nat → Nat × Nat) (n : Nat)
    (keys : Keys) (rng : Nat) :
    (highFreqReleaseLoop rngNext n keys rng).1 = keys := by
  induction n generalizing rng with
  | zero => rfl
  | succ n ih =>
    unfold highFreqReleaseLoop
    simp only [Nat.not_lt_zero, if_false]
    exact ih _

/-- The HighFreq press loop never changes the key state: its condition
compares a nonnegative draw with `< 0`. -/
theorem highFreqPressLoop_fst (rngNext : Nat → Nat × Nat) (n : Nat)
    (keys : Keys) (rng : Nat) :
    (highFreqPressLoop rngNext n keys rng).1 = keys := by
  induction n generalizing rng with
  | zero => rfl
  | succ n ih =>
    unfold highFreqPressLoop
    simp only [Nat.not_lt_zero, if_false]
    exact ih _

/-- C4 evidence: whenever a call to `next()` lands in the HighFreq phase
(the phase after the countdown update is HighFreq), the returned input
state is exactly the previous one with its just-pressed bits cleared — the
release and press rolls can never fire, for any generator model and any
state, because their conditions compare nonnegative draws with `< 0`. -/
theorem highfreq_never_presses (rngNext : Nat → Nat × Nat)
    (g : SolutionGenerator)
    (hphase : (if g.phase_time_left = 0
               then (GeneratorPhase.sample rngNext g.random_generator).1
               else g.phase) = GeneratorPhase.HighFreq) :
    (g.next rngNext).1 = g.keys.update := by
  unfold SolutionGenerator.next
  by_cases h0 : g.phase_time_left = 0
  · rw [if_pos h0] at hphase
    simp only [h0, if_true, hphase, highFreqReleaseLoop_fst, highFreqPressLoop_fst]
  · rw [if_neg h0] at hphase
    simp only [h0, if_false, hphase, highFreqReleaseLoop_fst, highFreqPressLoop_fst]

/-- Witness for C4 at a concrete HighFreq state with a held key. -/
theorem highfreq_never_presses_witness :
    (witnessHighFreqGen.next witnessRng).1 = witnessHighFreqGen.keys.update :=
  highfreq_never_presses witnessRng witnessHighFreqGen (by decide)

/-- C5 counterexample: a reachable obstacle-subsystem state (119 ticks at
constant viewport width 50, with the draws of `c5Draws`: cacti spawned at
ticks 10, 55 and 100, a bird at tick 110) in which the later-spawned bird
(velocity 7) has overtaken the earlier-spawned cactus (velocity 3): the
queue holds the cactus at x = -7 in front and the bird at x = -13 behind
it, so the oldest-spawned obstacle is no longer the leading (leftmost)
one and spawn order does not match position order. -/
theorem enemy_overtake_counterexample :
    EnemiesReachable (enemiesRun c5Rng (fun _ => 50) 119) ∧
    (enemiesRun c5Rng (fun _ => 50) 119).enemies =
      [{ position := ⟨-7, 0⟩, velocity := 3, model := EnemyModel.Cactus 0 },
       { position := ⟨-13, 20⟩, velocity := 7, model := EnemyModel.Bird }] ∧
    ¬ spawnOrderMatchesPositionOrder (enemiesRun c5Rng (fun _ => 50) 119) :=
  ⟨⟨c5Rng, fun _ => 50, 119, rfl⟩, by decide, by decide⟩

/-- C5 amended: the queue structure respects spawn order — despawn removes
at most the front element and spawning only appends at the back — and
obstacle motion preserves position order for every pair in which the
earlier (front-ward) obstacle is at least as fast as the later one; this
covers all pairs of cacti (all velocity 3) but not a bird (velocity 4..7)
spawned behind a cactus, which can overtake it. -/
theorem enemy_order_amended (rngNext : Nat → Nat × Nat) (width : Int)
    (s : EnemiesState) :
    ((despawn_enemies s).enemies = s.enemies ∨
      (despawn_enemies s).enemies = s.enemies.tail) ∧
    (∃ l, (spawn_enemies rngNext width s).enemies = s.enemies ++ l) ∧
    (spawnOrderMatchesPositionOrder s →
      s.enemies.Pairwise (fun a b => b.velocity ≤ a.velocity) →
      spawnOrderMatchesPositionOrder (update_enemies s)) := by
  refine ⟨?_, ?_, ?_⟩
  · unfold despawn_enemies
    split
    · exact Or.inl rfl
    · next e rest heq =>
      split
      · exact Or.inr (by rw [heq]; rfl)
      · exact Or.inl rfl
  · unfold spawn_enemies
    by_cases h0 : s.enemy_cooldown = 0
    · rw [if_pos h0]
      unfold spawn_enemy
      dsimp only
      split
      · unfold spawn_cactus
        exact ⟨_, rfl⟩
      · unfold spawn_bird
        exact ⟨_, rfl⟩
    · rw [if_neg h0]
      exact ⟨[], (List.append_nil _).symm⟩
  · intro hpos hvel
    unfold spawnOrderMatchesPositionOrder at hpos ⊢
    unfold update_enemies
    rw [List.map_map]
    rw [List.pairwise_map] at hpos ⊢
    refine ((hpos.and hvel).imp ?_)
    intro a b hab
    obtain ⟨h1, h2⟩ := hab
    simp only [Function.comp]
    omega

/-- Witness for the amended statement of C5 on two same-speed cacti. -/
theorem enemy_order_amended_witness :
    spawnOrderMatchesPositionOrder (update_enemies witnessEnemies) :=
  (enemy_order_amended witnessRng 50 witnessEnemies).2.2 (by decide) (by decide)

/-- Interval intersection is symmetric. -/
theorem line_intersect_comm {α : Type} [LinearOrder α] (l o : Line α) :
    l.intersect o = o.intersect l := by
  unfold Line.intersect
  rw [max_comm, min_comm]

/-- Rectangle intersection is symmetric. -/
theorem rect_intersect_comm {α : Type} [LinearOrder α] (r o : Rect α) :
    r.intersect o = o.intersect r := by
  unfold Rect.intersect
  rw [line_intersect_comm r.x o.x, line_intersect_comm r.y o.y]

/-- The aligned row test of `collide` is symmetric in the two rows. -/
theorem collideRows_comm (ra rb : Nat) (sa sb : Int) :
    collideRows ra rb sa sb = collideRows rb ra sb sa := by
  unfold collideRows
  rcases lt_trichotomy sa sb with h | h | h
  · rw [if_pos h, if_neg (not_lt.mpr h.le), Nat.land_comm]
  · subst h
    simp [lt_self_iff_false, Int.sub_self, Nat.shiftRight_zero, Nat.land_comm]
  · rw [if_neg (not_lt.mpr h.le), if_pos h, Nat.land_comm]

/-- C10: pixel collision is symmetric — `collide(a, b)` and `collide(b, a)`
always agree. -/
theorem sprite_collide_comm (a b : Sprite) : a.collide b = b.collide a := by
  unfold Sprite.collide
  dsimp only
  rw [rect_intersect_comm]
  cases h : b.bounding_box.intersect a.bounding_box with
  | none => rfl
  | some inter =>
    dsimp only
    refine congrArg (List.any _) ?_
    funext y
    exact collideRows_comm _ _ _ _

/-- Membership in the embedded integer range `[a, b)`. -/
theorem mem_intRange {a b y : Int} : y ∈ intRange a b ↔ a ≤ y ∧ y < b := by
  unfold intRange
  simp only [List.mem_map, List.mem_range]
  constructor
  · rintro ⟨i, hi, rfl⟩
    show a ≤ a + (i : Int) ∧ a + (i : Int) < b
    omega
  · rintro ⟨h1, h2⟩
    refine ⟨(y - a).toNat, by omega, ?_⟩
    show a + ((y - a).toNat : Int) = y
    omega

/-- A set bit of a number below `2 ^ w` lies below position `w`. -/
theorem testBit_true_lt {r w i : Nat} (hr : r < 2 ^ w) (h : r.testBit i = true) :
    i < w := by
  by_contra hge
  have hlt : r < 2 ^ i :=
    lt_of_lt_of_le hr (Nat.pow_le_pow_right (by norm_num) (Nat.le_of_not_lt hge))
  rw [Nat.testBit_lt_two_pow hlt] at h
  exact Bool.false_ne_true h

/-- A bitwise AND is nonzero exactly when the operands share a set bit. -/
theorem land_ne_zero_iff (x y : Nat) :
    x &&& y ≠ 0 ↔ ∃ i, x.testBit i = true ∧ y.testBit i = true := by
  constructor
  · intro h
    obtain ⟨i, hi⟩ := Nat.ne_zero_implies_bit_true h
    rw [Nat.testBit_land] at hi
    exact ⟨i, Bool.and_eq_true_iff.mp hi⟩
  · rintro ⟨i, h1, h2⟩ h0
    have ht := Nat.testBit_land x y i
    simp [h0, Nat.zero_testBit, h1, h2] at ht

/-- With the smaller-or-equal start on the left, the row test takes the
shift-the-first-row form. -/
theorem collideRows_eq_of_le (ra rb : Nat) (sa sb : Int) (h : sa ≤ sb) :
    collideRows ra rb sa sb = (ra >>> (sb - sa).toNat &&& rb != 0) := by
  unfold collideRows
  rcases eq_or_lt_of_le h with rfl | hlt
  · rw [if_neg (lt_irrefl sa)]
    simp [Int.sub_self, Nat.shiftRight_zero]
  · rw [if_pos hlt]

/-- Column-level reading of the row test: with well-formed rows it holds
exactly when some absolute column carries a set bit of both rows (each row
starting at its own box column). -/
theorem collideRows_true_iff (ra rb wa wb : Nat) (sa sb : Int) (h : sa ≤ sb)
    (hra : ra < 2 ^ wa) (hrb : rb < 2 ^ wb) :
    collideRows ra rb sa sb = true ↔
      ∃ x : Int, sa ≤ x ∧ x < sa + wa ∧ sb ≤ x ∧ x < sb + wb ∧
        ra.testBit (x - sa).toNat = true ∧ rb.testBit (x - sb).toNat = true := by
  rw [collideRows_eq_of_le ra rb sa sb h, bne_iff_ne, land_ne_zero_iff]
  constructor
  · rintro ⟨k, h1, h2⟩
    rw [Nat.testBit_shiftRight] at h1
    have hka : (sb - sa).toNat + k < wa := testBit_true_lt hra h1
    have hkb : k < wb := testBit_true_lt hrb h2
    refine ⟨sb + k, by omega, by omega, by omega, by omega, ?_, ?_⟩
    · have he : (sb + (k : Int) - sa).toNat = (sb - sa).toNat + k := by omega
      rw [he]
      exact h1
    · have he : (sb + (k : Int) - sb).toNat = k := by omega
      rw [he]
      exact h2
  · rintro ⟨x, hxa1, hxa2, hxb1, hxb2, hta, htb⟩
    refine ⟨(x - sb).toNat, ?_, ?_⟩
    · rw [Nat.testBit_shiftRight]
      have he : (sb - sa).toNat + (x - sb).toNat = (x - sa).toNat := by omega
      rw [he]
      exact hta
    · exact htb

/-- Inversion of a successful interval intersection. -/
theorem line_intersect_eq_some {α : Type} [LinearOrder α] {l o i : Line α}
    (h : l.intersect o = some i) :
    i.start = max l.start o.start ∧ i.stop = min l.stop o.stop ∧
      max l.start o.start < min l.stop o.stop := by
  unfold Line.intersect Line.new_checked at h
  split at h
  · exact Option.noConfusion h
  · next hge =>
    cases h
    exact ⟨rfl, rfl, not_le.mp hge⟩

/-- An empty interval intersection admits no common point. -/
theorem line_intersect_eq_none_disjoint {α : Type} [LinearOrder α]
    {l o : Line α} (h : l.intersect o = none) (x : α) :
    ¬(l.start ≤ x ∧ x < l.stop ∧ o.start ≤ x ∧ x < o.stop) := by
  rintro ⟨h1, h2, h3, h4⟩
  unfold Line.intersect Line.new_checked at h
  split at h
  · next hge =>
    exact lt_irrefl x
      (lt_of_lt_of_le (lt_min h2 h4) (le_trans hge (max_le h1 h3)))
  · exact Option.noConfusion h

/-- Inversion of a successful rectangle intersection. -/
theorem rect_intersect_eq_some_parts {α : Type} [LinearOrder α]
    {r o i : Rect α} (h : r.intersect o = some i) :
    r.x.intersect o.x = some i.x ∧ r.y.intersect o.y = some i.y := by
  unfold Rect.intersect at h
  cases hx : r.x.intersect o.x with
  | none =>
    rw [hx] at h
    exact Option.noConfusion h
  | some lx =>
    cases hy : r.y.intersect o.y with
    | none =>
      rw [hx, hy] at h
      exact Option.noConfusion h
    | some ly =>
      rw [hx, hy] at h
      cases h
      exact ⟨rfl, rfl⟩

/-- Inversion of an empty rectangle intersection. -/
theorem rect_intersect_eq_none_parts {α : Type} [LinearOrder α]
    {r o : Rect α} (h : r.intersect o = none) :
    r.x.intersect o.x = none ∨ r.y.intersect o.y = none := by
  unfold Rect.intersect at h
  cases hx : r.x.intersect o.x with
  | none => exact Or.inl rfl
  | some lx =>
    cases hy : r.y.intersect o.y with
    | none => exact Or.inr rfl
    | some ly =>
      rw [hx, hy] at h
      exact Option.noConfusion h

/-- For either origin, the x extent of the bounding box spans the image width. -/
theorem bounding_box_x_stop (s : Sprite) :
    s.bounding_box.x.stop = s.bounding_box.x.start + s.image.width := by
  unfold Sprite.bounding_box
  cases hox : s.origin.x <;> simp [hox, Line.new] <;> omega

/-- For either origin, the y extent of the bounding box spans the image height. -/
theorem bounding_box_y_stop (s : Sprite) :
    s.bounding_box.y.stop = s.bounding_box.y.start + s.image.height := by
  unfold Sprite.bounding_box
  cases hoy : s.origin.y <;> simp [hoy, Line.new] <;> omega

/-- Every row fetched from a well-formed image (in range or the default 0)
is below `2 ^ width`. -/
theorem wf_row_lt {img : Image} (h : img.wf) (i : Nat) :
    img.pixels.getD i 0 < 2 ^ img.width := by
  by_cases hi : i < img.pixels.length
  · rw [List.getD_eq_getElem _ _ hi]
    exact h _ (List.getElem_mem _)
  · rw [List.getD_eq_default _ _ (Nat.le_of_not_lt hi)]
    exact Nat.two_pow_pos _

/-- C1: for well-formed images (no row bit at or beyond the declared
width), `collide` returns true exactly when some pixel inside the
intersection of the two bounding boxes is opaque in both sprites; in
particular, sprites with disjoint bounding boxes never collide, and
sprites whose opaque pixels are disjoint within the overlap never
collide. -/
theorem sprite_collide_iff (a b : Sprite) (ha : a.image.wf) (hb : b.image.wf) :
    (a.collide b = true ↔ ∃ x y : Int, a.opaqueAt x y ∧ b.opaqueAt x y) ∧
    (a.bounding_box.intersect b.bounding_box = none → a.collide b = false) := by
  have hdisj : a.bounding_box.intersect b.bounding_box = none →
      a.collide b = false := by
    intro h
    unfold Sprite.collide
    dsimp only
    rw [h]
  refine ⟨?_, hdisj⟩
  cases hI : a.bounding_box.intersect b.bounding_box with
  | none =>
    rw [hdisj hI]
    simp only [Bool.false_eq_true, false_iff]
    rintro ⟨x, y, hoa, hob⟩
    unfold Sprite.opaqueAt at hoa hob
    obtain ⟨hax1, hax2, hay1, hay2, -⟩ := hoa
    obtain ⟨hbx1, hbx2, hby1, hby2, -⟩ := hob
    rcases rect_intersect_eq_none_parts hI with hn | hn
    · exact line_intersect_eq_none_disjoint hn x ⟨hax1, hax2, hbx1, hbx2⟩
    · exact line_intersect_eq_none_disjoint hn y ⟨hay1, hay2, hby1, hby2⟩
  | some inter =>
    obtain ⟨hpx, hpy⟩ := rect_intersect_eq_some_parts hI
    obtain ⟨hxs, hxe, hxlt⟩ := line_intersect_eq_some hpx
    obtain ⟨hys, hye, hylt⟩ := line_intersect_eq_some hpy
    have hstopxa := bounding_box_x_stop a
    have hstopxb := bounding_box_x_stop b
    unfold Sprite.collide
    dsimp only
    rw [hI]
    dsimp only
    rw [List.any_eq_true]
    constructor
    · rintro ⟨y, hymem, hrow⟩
      rw [mem_intRange, hys, hye] at hymem
      obtain ⟨hy1, hy2⟩ := hymem
      have hya1 : a.bounding_box.y.start ≤ y := le_trans (le_max_left _ _) hy1
      have hyb1 : b.bounding_box.y.start ≤ y := le_trans (le_max_right _ _) hy1
      have hya2 : y < a.bounding_box.y.stop := lt_of_lt_of_le hy2 (min_le_left _ _)
      have hyb2 : y < b.bounding_box.y.stop := lt_of_lt_of_le hy2 (min_le_right _ _)
      have hwA := wf_row_lt ha (y - a.bounding_box.y.start).toNat
      have hwB := wf_row_lt hb (y - b.bounding_box.y.start).toNat
      rcases le_total a.bounding_box.x.start b.bounding_box.x.start with hle | hle
      · rw [collideRows_true_iff _ _ a.image.width b.image.width _ _ hle hwA hwB]
          at hrow
        obtain ⟨x, hx1, hx2, hx3, hx4, ht1, ht2⟩ := hrow
        refine ⟨x, y, ?_, ?_⟩
        · unfold Sprite.opaqueAt
          exact ⟨by omega, by omega, hya1, hya2, ht1⟩
        · unfold Sprite.opaqueAt
          exact ⟨hx3, by omega, hyb1, hyb2, ht2⟩
      · rw [collideRows_comm] at hrow
        rw [collideRows_true_iff _ _ b.image.width a.image.width _ _ hle hwB hwA]
          at hrow
        obtain ⟨x, hx1, hx2, hx3, hx4, ht1, ht2⟩ := hrow
        refine ⟨x, y, ?_, ?_⟩
        · unfold Sprite.opaqueAt
          exact ⟨hx3, by omega, hya1, hya2, ht2⟩
        · unfold Sprite.opaqueAt
          exact ⟨by omega, by omega, hyb1, hyb2, ht1⟩
    · rintro ⟨x, y, hoa, hob⟩
      unfold Sprite.opaqueAt at hoa hob
      obtain ⟨hax1, hax2, hay1, hay2, hta⟩ := hoa
      obtain ⟨hbx1, hbx2, hby1, hby2, htb⟩ := hob
      refine ⟨y, ?_, ?_⟩
      · rw [mem_intRange, hys, hye]
        exact ⟨max_le hay1 hby1, lt_min hay2 hby2⟩
      · have hwA := wf_row_lt ha (y - a.bounding_box.y.start).toNat
        have hwB := wf_row_lt hb (y - b.bounding_box.y.start).toNat
        rcases le_total a.bounding_box.x.start b.bounding_box.x.start with hle | hle
        · rw [collideRows_true_iff _ _ a.image.width b.image.width _ _ hle hwA hwB]
          exact ⟨x, hax1, by omega, hbx1, by omega, hta, htb⟩
        · rw [collideRows_comm]
          rw [collideRows_true_iff _ _ b.image.width a.image.width _ _ hle hwB hwA]
          exact ⟨x, hbx1, by omega, hax1, by omega, htb, hta⟩

/-- Witness for C1 on two concrete overlapping sprites. -/
theorem sprite_collide_iff_witness :
    witnessSpriteA.image.wf ∧ witnessSpriteB.image.wf ∧
    ((witnessSpriteA.collide witnessSpriteB = true ↔
        ∃ x y : Int, witnessSpriteA.opaqueAt x y ∧ witnessSpriteB.opaqueAt x y) ∧
     (witnessSpriteA.bounding_box.intersect witnessSpriteB.bounding_box = none →
        witnessSpriteA.collide witnessSpriteB = false)) :=
  ⟨by decide, by decide,
   sprite_collide_iff witnessSpriteA witnessSpriteB (by decide) (by decide)⟩

end Miniterms
